import Mathlib

/-!
Shallow embedding of `src/api/index.py` (a FastAPI backend relay) and
verification of its specified properties: webhook ingestion, the CSV record
store (`save_to_csv`), the WebSocket notification registry
(`websocket_clients` / `notify_clients`), the log/CSV view endpoints and the
two upstream-forwarding endpoints (`authenticate`, `get_patient_docs`).
-/

namespace FastReact

/-- Parsed JSON values, as produced by `await request.json()`.  Objects keep
their key/value pairs in insertion order (Python dicts have no duplicate
keys). -/
inductive Json where
  | null
  | bool (b : Bool)
  | num (n : Int)
  | str (s : String)
  | arr (xs : List Json)
  | obj (kvs : List (String × Json))

/-- Python exceptions that the handlers in `index.py` can raise, plus the
`HTTPException(status_code, detail)` FastAPI error. -/
inductive PyError where
  /-- `AttributeError`: calling `.get` on a value that is not a dict. -/
  | attributeError
  /-- `ValueError`: `list.remove(x)` when `x` is not in the list. -/
  | valueError
  /-- `json.JSONDecodeError`: `await request.json()` on a body that is not
  valid JSON (including an empty body). -/
  | jsonDecodeError
  /-- A disk write failure inside `save_to_csv`. -/
  | ioError
  /-- A failure of `client.send_text` on a dead WebSocket. -/
  | wsError
  /-- `fastapi.HTTPException(status_code, detail)`. -/
  | httpException (status : Nat) (detail : String)
deriving DecidableEq

/-- First value bound to `key` in a Python-dict association list. -/
def Json.lookup (kvs : List (String × Json)) (key : String) : Option Json :=
  match kvs with
  | [] => none
  | (k, v) :: rest => if k = key then some v else Json.lookup rest key

/-- Python `d.get(key, default)`: returns the stored value when the key is
present (even when that value is `None`), the default otherwise; raises
`AttributeError` when the receiver is not a dict. -/
def dictGetD (j : Json) (key : String) (default : Json) : Except PyError Json :=
  match j with
  | .obj kvs => .ok ((Json.lookup kvs key).getD default)
  | _ => .error .attributeError

/-- Python `d.get(key)`: default is `None`. -/
def dictGet (j : Json) (key : String) : Except PyError Json :=
  dictGetD j key .null

/-- Python truthiness of a JSON value, as used by `if not download_link`. -/
def pyTruthy : Json → Bool
  | .null => false
  | .bool b => b
  | .num n => n != 0
  | .str s => s ≠ ""
  | .arr xs => !xs.isEmpty
  | .obj kvs => !kvs.isEmpty

/-- Python `repr` of a JSON value (element rendering inside f-strings for
containers). -/
def pyRepr : Json → String
  | .null => "None"
  | .bool true => "True"
  | .bool false => "False"
  | .num n => toString n
  | .str s => "\x27" ++ s ++ "\x27"
  | .arr xs => "[" ++ String.intercalate ", " (xs.attach.map fun x => pyRepr x.1) ++ "]"
  | .obj kvs =>
      "\x7b" ++
        String.intercalate ", "
          (kvs.attach.map fun kv => "\x27" ++ kv.1.1 ++ "\x27: " ++ pyRepr kv.1.2) ++
      "\x7d"
decreasing_by
  · have := List.sizeOf_lt_of_mem x.2; simp_all; omega
  · obtain ⟨⟨k, v⟩, hm⟩ := kv
    have := List.sizeOf_lt_of_mem hm
    simp_all; omega

/-- Python `str` of a JSON value, as interpolated by an f-string such as
`f"Webhook received: \x7burl\x7d"`. -/
def pyStr : Json → String
  | .str s => s
  | j => pyRepr j

/-- One line of a CSV file written by pandas `to_csv`: either the header line
naming the columns, or a data line whose cells are in the header column
order. -/
inductive CsvLine where
  | header (cols : List String)
  | data (cells : List Json)

/-- The Event store columns (`/tmp/webhook_events.csv`). -/
def eventHeader : List String :=
  ["timestamp", "event_id", "event_type", "org_connection_id", "download_link"]

/-- The Connection Query store columns (`/tmp/org_connection_data.csv`). -/
def queryHeader : List String :=
  ["timestamp", "url", "org_connection_id"]

/-- `save_to_csv(file_path, data)` from `index.py` lines 99-111.  The file is
`none` while it does not exist.  `pd.DataFrame(data)` yields one data row per
record, cells in the fixed column order of the dict keys; when the file
exists, `to_csv(mode=a, header=False)` appends data rows only, otherwise
`to_csv` creates the file with the header line followed by the data rows. -/
def save_to_csv (cols : List String) (file : Option (List CsvLine))
    (rows : List (List Json)) : List CsvLine :=
  match file with
  | some lines => lines ++ rows.map CsvLine.data
  | none => CsvLine.header cols :: rows.map CsvLine.data

/-- A sequence of `save_to_csv` calls against one file, starting from the
given file state. -/
def runSaves (cols : List String) (file : Option (List CsvLine))
    (batches : List (List (List Json))) : Option (List CsvLine) :=
  batches.foldl (fun f b => some (save_to_csv cols f b)) file

/-- Whether a CSV line is a header line. -/
def CsvLine.isHeader : CsvLine → Bool
  | .header _ => true
  | .data _ => false

/-- A WebSocket client in the `websocket_clients` list: an identity plus
whether `send_text` on it succeeds (a dead connection makes it fail). -/
structure Client where
  id : Nat
  sendOk : Bool
deriving DecidableEq

/-- `notify_clients(message)` from `index.py` lines 131-139: a plain `for`
loop over `websocket_clients` calling `await client.send_text(message)`.
Returns the ids of the clients the message was delivered to, in list order,
and the outcome: the first failing send raises, aborting the loop.  The
function never mutates `websocket_clients`. -/
def notify_clients (clients : List Client) (message : String) :
    List Nat × Except PyError Unit :=
  match clients with
  | [] => ([], .ok ())
  | c :: rest =>
    if c.sendOk then
      let r := notify_clients rest message
      (c.id :: r.1, r.2)
    else ([], .error .wsError)

/-- Python `websocket_clients.remove(websocket)` (`index.py` line 129):
removes the first occurrence, raises `ValueError` when the element is
absent. -/
def listRemove (clients : List Client) (c : Client) :
    Except PyError (List Client) :=
  match clients with
  | [] => .error .valueError
  | x :: rest =>
    if x = c then .ok rest
    else (listRemove rest c).map (fun l => x :: l)

/-- The `{"status": "success"}` body returned by `webhook_listener`. -/
def successJson : Json := Json.obj [("status", Json.str "success")]

/-- The observable outcome of one `webhook_listener` call: the Event CSV
file state after the call, the ids of clients the broadcast reached, the
`websocket_clients` registry after the call, and the returned value or the
exception that propagated. -/
structure WebhookOutcome where
  file : Option (List CsvLine)
  sent : List Nat
  clients : List Client
  result : Except PyError Json

/-- `webhook_listener(request)` from `index.py` lines 141-173.
Inputs: `rawBody` is the parsed request body (`none` when the body is not
valid JSON, in which case `await request.json()` raises), `now` is the
server-clock value `datetime.now().isoformat()`, `file` the current state of
`/tmp/webhook_events.csv`, `persistOk` whether the disk write inside
`save_to_csv` succeeds, `clients` the `websocket_clients` registry.
Steps, in source order: parse body; `payload.get("data", \x7b\x7d)` twice for
`download_link` and `org_connection_id`; build the event dict with
`payload.get("id")` and `payload.get("type")`; `save_to_csv`; then
`notify_clients`; then return `\x7b"status": "success"\x7d`.  An exception at
any step propagates, keeping the side effects already performed. -/
def webhook_listener (rawBody : Option Json) (now : String)
    (file : Option (List CsvLine)) (persistOk : Bool) (clients : List Client) :
    WebhookOutcome :=
  match rawBody with
  | none => ⟨file, [], clients, .error .jsonDecodeError⟩
  | some payload =>
    match dictGetD payload "data" (Json.obj []) with
    | .error e => ⟨file, [], clients, .error e⟩
    | .ok dataObj =>
      match dictGet dataObj "download_link" with
      | .error e => ⟨file, [], clients, .error e⟩
      | .ok url =>
        match dictGet dataObj "org_connection_id" with
        | .error e => ⟨file, [], clients, .error e⟩
        | .ok orgConnId =>
          match dictGet payload "id", dictGet payload "type" with
          | .error e, _ => ⟨file, [], clients, .error e⟩
          | _, .error e => ⟨file, [], clients, .error e⟩
          | .ok eventId, .ok eventType =>
            let eventRow : List Json :=
              [Json.str now, eventId, eventType, orgConnId, url]
            if persistOk then
              let file' := save_to_csv eventHeader file [eventRow]
              let br := notify_clients clients ("Webhook received: " ++ pyStr url)
              match br.2 with
              | .ok _ => ⟨some file', br.1, clients, .ok successJson⟩
              | .error e => ⟨some file', br.1, clients, .error e⟩
            else ⟨file, [], clients, .error .ioError⟩

/-- Response of a file-serving endpoint: either a `FileResponse` of the CSV
content (status 200), or a `PlainTextResponse` with an explicit status. -/
inductive FileResp where
  | fileContent (lines : List CsvLine)
  | plainText (status : Nat) (body : String)

/-- `view_webhook_csv()` from `index.py` lines 175-188: serves
`/tmp/webhook_events.csv` when it exists, else 404 "CSV file not found". -/
def view_webhook_csv (file : Option (List CsvLine)) : FileResp :=
  match file with
  | some lines => FileResp.fileContent lines
  | none => FileResp.plainText 404 "CSV file not found"

/-- `view_csv()` from `index.py` lines 264-277: serves
`/tmp/org_connection_data.csv` when it exists, else 404 "CSV file not found". -/
def view_csv (file : Option (List CsvLine)) : FileResp :=
  match file with
  | some lines => FileResp.fileContent lines
  | none => FileResp.plainText 404 "CSV file not found"

/-- A plain HTTP response with status, body and media type; Starlette
`Response(content=...)` defaults to status 200. -/
structure HttpResp where
  status : Nat
  body : String
  mediaType : String
deriving DecidableEq

/-- `view_log()` from `index.py` lines 65-78: returns the log text when the
file exists, else a 200 `Response` bodied "Log file not found.". -/
def view_log (log : Option String) : HttpResp :=
  match log with
  | some content => ⟨200, content, "text/plain"⟩
  | none => ⟨200, "Log file not found.", "text/plain"⟩

/-- `download_log()` from `index.py` lines 80-97: returns the log bytes as an
attachment when the file exists, else a 200 `Response` bodied
"Log file not found.". -/
def download_log (log : Option String) : HttpResp :=
  match log with
  | some content => ⟨200, content, "application/octet-stream"⟩
  | none => ⟨200, "Log file not found.", "text/plain"⟩

/-- The upstream HTTP response observed by `requests.post` / `requests.get`:
a status code and a JSON body. -/
structure UpstreamResponse where
  status : Nat
  body : Json

/-- Outcome of `authenticate`: the JSON payload POSTed upstream (`none` when
no upstream request was made) and the returned value or exception. -/
structure AuthOutcome where
  sent : Option Json
  result : Except PyError Json

/-- `authenticate(request)` from `index.py` lines 212-236: reads
`org_connection_id` from the body via `.get`, POSTs
`\x7b"org_connection_id": ...\x7d` to the fixed Fasten Connect URL, raises
`HTTPException(status_code=response.status_code, detail="Error with Fasten
Connect API")` when the upstream status is not exactly 200, else returns the
upstream JSON body unchanged.  `upstreamResp` is the response the upstream
gives to the request. -/
def authenticate (rawBody : Option Json) (upstreamResp : UpstreamResponse) :
    AuthOutcome :=
  match rawBody with
  | none => ⟨none, .error .jsonDecodeError⟩
  | some body =>
    match dictGet body "org_connection_id" with
    | .error e => ⟨none, .error e⟩
    | .ok orgConnId =>
      let payload := Json.obj [("org_connection_id", orgConnId)]
      if upstreamResp.status = 200 then ⟨some payload, .ok upstreamResp.body⟩
      else
        ⟨some payload,
         .error (.httpException upstreamResp.status "Error with Fasten Connect API")⟩

/-- Outcome of `get_patient_docs`: the download link fetched upstream via
`requests.get` (`none` when no upstream request was made) and the returned
value or exception. -/
structure DocsOutcome where
  sent : Option Json
  result : Except PyError Json

/-- `get_patient_docs(request)` from `index.py` lines 238-262: reads
`download_link` from the body via `.get`; when it is falsy raises
`HTTPException(400, "Download link is required")` before any upstream call;
otherwise GETs the link and relays the body, raising
`HTTPException(status, "Error fetching patient docs")` on a non-200
upstream status. -/
def get_patient_docs (rawBody : Option Json) (upstreamResp : UpstreamResponse) :
    DocsOutcome :=
  match rawBody with
  | none => ⟨none, .error .jsonDecodeError⟩
  | some body =>
    match dictGet body "download_link" with
    | .error e => ⟨none, .error e⟩
    | .ok link =>
      if pyTruthy link then
        if upstreamResp.status = 200 then ⟨some link, .ok upstreamResp.body⟩
        else
          ⟨some link,
           .error (.httpException upstreamResp.status "Error fetching patient docs")⟩
      else ⟨none, .error (.httpException 400 "Download link is required")⟩

/-! ### Helper lemmas -/

/-- `save_to_csv` always yields the existing lines (the header line alone on
first creation) followed by exactly the given data rows. -/
theorem save_to_csv_append (cols : List String) (file : Option (List CsvLine))
    (rows : List (List Json)) :
    save_to_csv cols file rows =
      file.getD [CsvLine.header cols] ++ rows.map CsvLine.data := by
  cases file <;> rfl

/-- When every registered client's send succeeds, `notify_clients` delivers
to all of them in order and returns normally. -/
theorem notify_clients_all_ok (clients : List Client) (message : String)
    (h : clients.all (fun c => c.sendOk) = true) :
    notify_clients clients message =
      (clients.map (fun c => c.id), Except.ok ()) := by
  induction clients with
  | nil => rfl
  | cons c rest ih =>
    simp only [List.all_cons, Bool.and_eq_true] at h
    simp [notify_clients, h.1, ih h.2]

/-- A run of `save_to_csv` calls against an existing file only ever appends
data rows. -/
theorem runSaves_some (cols : List String) (lines : List CsvLine)
    (batches : List (List (List Json))) :
    runSaves cols (some lines) batches =
      some (lines ++ (batches.foldr (fun b acc => b ++ acc) []).map CsvLine.data) := by
  induction batches generalizing lines with
  | nil => simp [runSaves]
  | cons b bs ih =>
    simp only [runSaves, List.foldl_cons] at ih ⊢
    rw [show save_to_csv cols (some lines) b = lines ++ b.map CsvLine.data from rfl, ih]
    simp

/-- When the disk write fails, `webhook_listener` leaves the file untouched,
broadcasts to nobody, leaves the registry unchanged, and raises. -/
theorem webhook_no_persist (rawBody : Option Json) (now : String)
    (file : Option (List CsvLine)) (clients : List Client) :
    ∃ e, webhook_listener rawBody now file false clients =
      ⟨file, [], clients, Except.error e⟩ := by
  cases rawBody with
  | none => exact ⟨.jsonDecodeError, rfl⟩
  | some payload =>
    rcases h1 : dictGetD payload "data" (Json.obj []) with e | dataObj
    · exact ⟨e, by simp [webhook_listener, h1]⟩
    rcases h2 : dictGet dataObj "download_link" with e | url
    · exact ⟨e, by simp [webhook_listener, h1, h2]⟩
    rcases h3 : dictGet dataObj "org_connection_id" with e | orgConnId
    · exact ⟨e, by simp [webhook_listener, h1, h2, h3]⟩
    rcases h4 : dictGet payload "id" with e | eventId
    · rcases h5 : dictGet payload "type" with e2 | eventType <;>
        exact ⟨e, by simp [webhook_listener, h1, h2, h3, h4, h5]⟩
    rcases h5 : dictGet payload "type" with e | eventType
    · exact ⟨e, by simp [webhook_listener, h1, h2, h3, h4, h5]⟩
    exact ⟨.ioError, by simp [webhook_listener, h1, h2, h3, h4, h5]⟩

/-! ### Claim theorems -/

/-- C3: the Event is persisted to the CSV store strictly before any
broadcast: when the `save_to_csv` disk write fails, the exception propagates
and no client is notified (and the file is untouched); conversely, whenever
the broadcast reached anyone, the Event row was already appended. -/
theorem C3_persist_precedes_broadcast (rawBody : Option Json) (now : String)
    (file : Option (List CsvLine)) (clients : List Client) :
    ((webhook_listener rawBody now file false clients).sent = [] ∧
     (webhook_listener rawBody now file false clients).file = file) ∧
    ∀ persistOk : Bool,
      (webhook_listener rawBody now file persistOk clients).sent ≠ [] →
        ∃ row, (webhook_listener rawBody now file persistOk clients).file =
          some (save_to_csv eventHeader file [row]) := by
  obtain ⟨e, he⟩ := webhook_no_persist rawBody now file clients
  refine ⟨⟨by rw [he], by rw [he]⟩, ?_⟩
  intro persistOk hsent
  cases persistOk with
  | false => rw [he] at hsent; exact absurd rfl hsent
  | true =>
    cases rawBody with
    | none => exact absurd rfl hsent
    | some payload =>
      rcases h1 : dictGetD payload "data" (Json.obj []) with e1 | dataObj
      · simp [webhook_listener, h1] at hsent
      rcases h2 : dictGet dataObj "download_link" with e2 | url
      · simp [webhook_listener, h1, h2] at hsent
      rcases h3 : dictGet dataObj "org_connection_id" with e3 | orgConnId
      · simp [webhook_listener, h1, h2, h3] at hsent
      rcases h4 : dictGet payload "id" with e4 | eventId
      · rcases h5 : dictGet payload "type" with e5 | eventType <;>
          simp [webhook_listener, h1, h2, h3, h4, h5] at hsent
      rcases h5 : dictGet payload "type" with e5 | eventType
      · simp [webhook_listener, h1, h2, h3, h4, h5] at hsent
      refine ⟨[Json.str now, eventId, eventType, orgConnId, url], ?_⟩
      simp only [webhook_listener, h1, h2, h3, h4, h5]
      cases (notify_clients clients ("Webhook received: " ++ pyStr url)).2 <;> simp

/-- C3 (witness): with a failing disk write nobody is notified, and with a
working disk write a delivered broadcast implies the row is in the file. -/
theorem C3_persist_precedes_broadcast_witness :
    (webhook_listener (some (Json.obj [])) "t" none false [⟨1, true⟩]).sent = [] ∧
    ∃ row, (webhook_listener (some (Json.obj [])) "t" none true [⟨1, true⟩]).file =
      some (save_to_csv eventHeader none [row]) :=
  ⟨(C3_persist_precedes_broadcast (some (Json.obj [])) "t" none [⟨1, true⟩]).1.1,
   (C3_persist_precedes_broadcast (some (Json.obj [])) "t" none [⟨1, true⟩]).2
     true (by decide)⟩

/-- C1 (counterexample): the empty JSON array is a payload that parses as
valid JSON, yet `webhook_listener` raises `AttributeError` (from
`payload.get`) and appends nothing — refuting the claim that no valid-JSON
payload shape causes the handler to raise. -/
theorem C1_webhook_raises_on_json_array :
    (webhook_listener (some (Json.arr [])) "t" none true []).result =
      Except.error .attributeError ∧
    (webhook_listener (some (Json.arr [])) "t" none true []).file = none :=
  ⟨rfl, rfl⟩

/-- C1 (amended): for every payload that parses as a JSON object whose
`data` member, when present, is itself an object, `webhook_listener` appends
exactly one Event row — each of `event_id`, `event_type`,
`org_connection_id` and `download_link` recorded as `null` when the
corresponding key is absent — and returns `\x7b"status": "success"\x7d`; a
valid-JSON payload that is not an object (or whose `data` member is present
and not an object, e.g. `null`) instead raises `AttributeError`. -/
theorem C1_webhook_appends_one_row (kvs : List (String × Json)) (now : String)
    (file : Option (List CsvLine)) (clients : List Client)
    (hdata : Json.lookup kvs "data" = none ∨
      ∃ d, Json.lookup kvs "data" = some (Json.obj d))
    (hok : clients.all (fun c => c.sendOk) = true) :
    (webhook_listener (some (Json.obj kvs)) now file true clients).file =
      some (file.getD [CsvLine.header eventHeader] ++
        [CsvLine.data [Json.str now,
          (Json.lookup kvs "id").getD Json.null,
          (Json.lookup kvs "type").getD Json.null,
          (match Json.lookup kvs "data" with
           | some (Json.obj d) => (Json.lookup d "org_connection_id").getD Json.null
           | _ => Json.null),
          (match Json.lookup kvs "data" with
           | some (Json.obj d) => (Json.lookup d "download_link").getD Json.null
           | _ => Json.null)]]) ∧
    (webhook_listener (some (Json.obj kvs)) now file true clients).result =
      Except.ok successJson := by
  have hn : ∀ m, notify_clients clients m =
      (clients.map (fun c => c.id), Except.ok ()) :=
    fun m => notify_clients_all_ok clients m hok
  rcases hdata with hnone | ⟨d, hd⟩
  · constructor <;>
      simp [webhook_listener, dictGetD, dictGet, hnone, Json.lookup, hn,
        save_to_csv_append]
  · constructor <;>
      simp [webhook_listener, dictGetD, dictGet, hd, hn, save_to_csv_append]

/-- C1 (witness): a concrete object payload carrying only `id` is accepted
and acknowledged with the success body. -/
theorem C1_webhook_appends_one_row_witness :
    (webhook_listener (some (Json.obj [("id", Json.str "e1")])) "t" none true
      [⟨1, true⟩]).result = Except.ok successJson :=
  (C1_webhook_appends_one_row [("id", Json.str "e1")] "t" none [⟨1, true⟩]
    (Or.inl rfl) rfl).2

/-- C5: for each record-store file, any nonempty run of `save_to_csv` calls
starting from a non-existent file yields the header line exactly once, at the
head (written at first creation), followed only by data rows — subsequent
appends never write the header again. -/
theorem C5_header_written_once (cols : List String) (b : List (List Json))
    (bs : List (List (List Json))) :
    runSaves cols none (b :: bs) =
      some (CsvLine.header cols ::
        (((b :: bs).foldr (fun x acc => x ++ acc) []).map CsvLine.data)) ∧
    (CsvLine.header cols ::
        (((b :: bs).foldr (fun x acc => x ++ acc) []).map CsvLine.data)).countP
      (fun l => l.isHeader) = 1 := by
  constructor
  · show runSaves cols (some (save_to_csv cols none b)) bs = _
    rw [show save_to_csv cols none b = CsvLine.header cols :: b.map CsvLine.data from rfl,
      runSaves_some]
    simp
  · simp [List.countP_cons, List.countP_map, CsvLine.isHeader]

/-- C7: round-trip — after appending a row via `save_to_csv`, reading the
Event store back through `view_webhook_csv` returns file content whose last
line is exactly that row (cells in the header column order). -/
theorem C7_append_read_roundtrip (file : Option (List CsvLine)) (r : List Json) :
    ∃ lines,
      view_webhook_csv (some (save_to_csv eventHeader file [r])) =
        FileResp.fileContent lines ∧
      lines.getLast? = some (CsvLine.data r) := by
  refine ⟨save_to_csv eventHeader file [r], rfl, ?_⟩
  rw [save_to_csv_append]
  simp

/-- C9: when the log file is missing, `view_log` and `download_log` answer
with status 200 and the plain-text body "Log file not found.", while the two
CSV-view endpoints answer 404 in their file-missing case. -/
theorem C9_log_missing_returns_200 :
    view_log none = ⟨200, "Log file not found.", "text/plain"⟩ ∧
    download_log none = ⟨200, "Log file not found.", "text/plain"⟩ ∧
    view_webhook_csv none = FileResp.plainText 404 "CSV file not found" ∧
    view_csv none = FileResp.plainText 404 "CSV file not found" :=
  ⟨rfl, rfl, rfl, rfl⟩

/-- C2 (counterexample): with a failing client registered first and a healthy
client second, the broadcast delivers to nobody — the healthy client, whose
send would succeed, does not receive the message — the send failure
propagates, and the failing client is still in the registry afterwards
(observed through a full `webhook_listener` call).  This refutes the claim
that every non-failing client receives the message and every failing client
is removed. -/
theorem C2_broadcast_failure_aborts_and_no_removal :
    (notify_clients [⟨1, false⟩, ⟨2, true⟩] "X").1 = [] ∧
    (notify_clients [⟨1, false⟩, ⟨2, true⟩] "X").2 = Except.error .wsError ∧
    (webhook_listener (some (Json.obj [])) "t" none true
        [⟨1, false⟩, ⟨2, true⟩]).clients = [⟨1, false⟩, ⟨2, true⟩] :=
  ⟨rfl, rfl, rfl⟩

/-- C2 (amended): `notify_clients` delivers the message, in registration
order, exactly to the clients before the first failing one; the first send
failure raises, so clients after it receive nothing, and no client is ever
removed from the registry by the broadcast. -/
theorem C2_broadcast_stops_at_first_failure (clients : List Client)
    (message : String) :
    notify_clients clients message =
      ((clients.takeWhile (fun c => c.sendOk)).map (fun c => c.id),
       if clients.all (fun c => c.sendOk) then Except.ok () else .error .wsError) := by
  induction clients with
  | nil => rfl
  | cons c rest ih =>
    by_cases h : c.sendOk = true
    · simp [notify_clients, h, ih, List.takeWhile_cons, List.all_cons]
    · simp only [Bool.not_eq_true] at h
      simp [notify_clients, h, List.takeWhile_cons, List.all_cons]

/-- C4 (counterexample): removing a client that is not in the registry is not
a no-op — `websocket_clients.remove` raises `ValueError`, both on an empty
registry and on a registry holding only other clients.  This refutes the
claim that unregistering an absent handle raises no exception. -/
theorem C4_remove_on_absent_client_raises :
    listRemove [] ⟨1, true⟩ = Except.error .valueError ∧
    listRemove [⟨2, true⟩] ⟨1, true⟩ = Except.error .valueError := by
  constructor
  · rfl
  · simp [listRemove, Except.map]

/-- C4 (amended): `websocket_clients.remove` on an absent client raises
`ValueError` (so it is not a silent no-op); on a present client it removes
exactly the first occurrence, leaving the rest of the registry unchanged. -/
theorem C4_remove_absent_raises (clients : List Client) (c : Client) :
    (c ∉ clients → listRemove clients c = Except.error .valueError) ∧
    (c ∈ clients → ∃ l r, clients = l ++ c :: r ∧ c ∉ l ∧
      listRemove clients c = Except.ok (l ++ r)) := by
  induction clients with
  | nil => exact ⟨fun _ => rfl, by simp⟩
  | cons x rest ih =>
    constructor
    · intro habs
      simp only [List.mem_cons, not_or] at habs
      have hx : ¬(x = c) := fun h => habs.1 h.symm
      simp [listRemove, hx, ih.1 habs.2, Except.map]
    · intro hmem
      by_cases hx : x = c
      · exact ⟨[], rest, by simp [hx], by simp, by simp [listRemove, hx]⟩
      · have hc : c ∈ rest := by
          rcases List.mem_cons.mp hmem with h | h
          · exact absurd h.symm hx
          · exact h
        obtain ⟨l, r, hsplit, hnotl, hrem⟩ := ih.2 hc
        refine ⟨x :: l, r, by simp [hsplit], ?_, ?_⟩
        · simp only [List.mem_cons, not_or]
          exact ⟨fun h => hx h.symm, hnotl⟩
        · simp [listRemove, hx, hrem, Except.map]

/-- C4 (witness): concrete instances of both halves of the amended claim. -/
theorem C4_remove_absent_raises_witness :
    listRemove [⟨3, true⟩] ⟨4, true⟩ = Except.error .valueError ∧
    (∃ l r, [(⟨5, true⟩ : Client)] = l ++ (⟨5, true⟩ : Client) :: r ∧
      (⟨5, true⟩ : Client) ∉ l ∧
      listRemove [⟨5, true⟩] ⟨5, true⟩ = Except.ok (l ++ r)) :=
  ⟨(C4_remove_absent_raises [⟨3, true⟩] ⟨4, true⟩).1 (by decide),
   (C4_remove_absent_raises [⟨5, true⟩] ⟨5, true⟩).2 (by decide)⟩

/-- C6 (counterexample): an upstream status of 201 — a 2xx success — is not
passed through: `authenticate` raises `HTTPException(201, ...)` instead of
returning the upstream body, because the code tests `status_code != 200`.
This refutes the claim that every 2xx upstream response is returned
verbatim. -/
theorem C6_status_201_raises :
    (authenticate (some (Json.obj [("org_connection_id", Json.str "org_123")]))
        ⟨201, Json.str "B"⟩).result =
      Except.error (.httpException 201 "Error with Fasten Connect API") ∧
    200 ≤ 201 ∧ 201 < 300 ∧
    (Except.error (PyError.httpException 201 "Error with Fasten Connect API") :
        Except PyError Json) ≠ Except.ok (Json.str "B") := by
  refine ⟨rfl, by omega, by omega, ?_⟩
  simp

/-- C6 (amended): for a body carrying an `org_connection_id` readable via
`.get`, `authenticate` returns the upstream JSON body verbatim exactly when
the upstream status is 200, and raises an `HTTPException` carrying the same
upstream status and a detail message for every other status (including
non-200 2xx codes). -/
theorem C6_status_200_passthrough (body orgConnId : Json)
    (resp : UpstreamResponse)
    (h : dictGet body "org_connection_id" = Except.ok orgConnId) :
    (resp.status = 200 →
      authenticate (some body) resp =
        ⟨some (Json.obj [("org_connection_id", orgConnId)]), Except.ok resp.body⟩) ∧
    (resp.status ≠ 200 →
      authenticate (some body) resp =
        ⟨some (Json.obj [("org_connection_id", orgConnId)]),
         Except.error (.httpException resp.status "Error with Fasten Connect API")⟩) := by
  constructor
  · intro h200
    simp [authenticate, h, h200]
  · intro hne
    simp [authenticate, h, hne]

/-- C6 (witness): a 200 upstream response is passed through verbatim, and a
401 upstream response surfaces as `HTTPException(401, ...)`. -/
theorem C6_status_200_passthrough_witness :
    authenticate (some (Json.obj [("org_connection_id", Json.str "o")]))
      ⟨200, Json.str "B"⟩ =
      ⟨some (Json.obj [("org_connection_id", Json.str "o")]),
       Except.ok (Json.str "B")⟩ ∧
    authenticate (some (Json.obj [("org_connection_id", Json.str "o")]))
      ⟨401, Json.str "E"⟩ =
      ⟨some (Json.obj [("org_connection_id", Json.str "o")]),
       Except.error (.httpException 401 "Error with Fasten Connect API")⟩ :=
  ⟨(C6_status_200_passthrough (Json.obj [("org_connection_id", Json.str "o")])
      (Json.str "o") ⟨200, Json.str "B"⟩ rfl).1 rfl,
   (C6_status_200_passthrough (Json.obj [("org_connection_id", Json.str "o")])
      (Json.str "o") ⟨401, Json.str "E"⟩ rfl).2 (by decide)⟩

/-- C8 (counterexample): a POST with a literally empty body is not answered
with a 400 — the empty body is not valid JSON, so `await request.json()`
raises a `JSONDecodeError` (surfaced as a 500 by the framework), never
reaching the `HTTPException(400, "Download link is required")` branch.  This
refutes the "body is empty → HTTP 400" half of the claim. -/
theorem C8_empty_body_not_400 :
    get_patient_docs none ⟨200, Json.null⟩ =
      ⟨none, Except.error .jsonDecodeError⟩ ∧
    (Except.error PyError.jsonDecodeError : Except PyError Json) ≠
      Except.error (.httpException 400 "Download link is required") := by
  refine ⟨rfl, ?_⟩
  simp

/-- C8 (amended): a POST whose body parses as a JSON object in which
`download_link` is absent (or falsy) is answered with
`HTTPException(400, "Download link is required")` and no upstream request is
made; a literally empty body instead raises a JSON parse error, not 400. -/
theorem C8_missing_download_link_400 (kvs : List (String × Json))
    (resp : UpstreamResponse)
    (h : pyTruthy ((Json.lookup kvs "download_link").getD Json.null) = false) :
    get_patient_docs (some (Json.obj kvs)) resp =
      ⟨none, Except.error (.httpException 400 "Download link is required")⟩ := by
  simp [get_patient_docs, dictGet, dictGetD, h]

/-- C8 (witness): the empty JSON object body gets the 400 with no upstream
request. -/
theorem C8_missing_download_link_400_witness :
    get_patient_docs (some (Json.obj [])) ⟨200, Json.null⟩ =
      ⟨none, Except.error (.httpException 400 "Download link is required")⟩ :=
  C8_missing_download_link_400 [] ⟨200, Json.null⟩ rfl

/-- C10: a JSON-object body without the `org_connection_id` key is not
rejected with a 400 — `authenticate` still makes the upstream request, with
`org_connection_id` set to `null` in the fixed-shape payload, and a 200
upstream response is returned to the caller. -/
theorem C10_auth_forwards_null_org (kvs : List (String × Json))
    (resp : UpstreamResponse)
    (h : Json.lookup kvs "org_connection_id" = none) :
    (authenticate (some (Json.obj kvs)) resp).sent =
      some (Json.obj [("org_connection_id", Json.null)]) ∧
    (resp.status = 200 →
      (authenticate (some (Json.obj kvs)) resp).result = Except.ok resp.body) := by
  constructor
  · simp only [authenticate, dictGet, dictGetD, h, Option.getD]
    by_cases h200 : resp.status = 200 <;> simp [h200]
  · intro h200
    simp [authenticate, dictGet, dictGetD, h, h200]

/-- C10 (witness): the empty-object body forwards `null` upstream and a 200
upstream answer is passed back. -/
theorem C10_auth_forwards_null_org_witness :
    (authenticate (some (Json.obj [])) ⟨200, Json.str "B"⟩).sent =
      some (Json.obj [("org_connection_id", Json.null)]) ∧
    (authenticate (some (Json.obj [])) ⟨200, Json.str "B"⟩).result =
      Except.ok (Json.str "B") :=
  ⟨(C10_auth_forwards_null_org [] ⟨200, Json.str "B"⟩ rfl).1,
   (C10_auth_forwards_null_org [] ⟨200, Json.str "B"⟩ rfl).2 rfl⟩

end FastReact

